import Mathlib

/-!
Verification of `scripts/verify-dist.mjs`, a post-build check that a bundler
produced `dist/index.html` and at least one `.js` file under `dist/assets`.

The script is embedded shallowly.  The filesystem state it can observe is a
small structure (`FS`): whether `dist` and `dist/index.html` are accessible
(and, for kind-independence statements, what kind of entry each is), and the
result of `fs.readdir` on `dist/assets` (`none` models a failed `readdir`,
which the script converts to an empty listing via `.catch(() => [])`).
The run's observable outcome is a `RunResult`: the process exit code, the
lines written to standard output and the lines written to the error stream.
`trace` records the sequence of filesystem and console effects the script
issues, in source order, to state short-circuiting and absence of mutation.
-/

namespace VerifyDist

/-- Kind of a filesystem entry.  `fs.access` and the `.js` suffix test in the
script never consult the kind; it is modelled so that kind-independence can be
stated and proved. -/
inductive EntryKind
  | file
  | dir
  | symlink
  | other
deriving DecidableEq, Repr

/-- A directory entry as stored in the modelled filesystem: a name together
with its kind.  `fs.readdir` without options returns only the names. -/
structure DirEntry where
  name : String
  kind : EntryKind
deriving DecidableEq, Repr

/-- The slice of filesystem state observed by the script.  For the two
`fs.access` calls, `none` models an absent or inaccessible path and `some k`
an accessible entry of kind `k`.  `assetsListing = none` models a failing
`fs.readdir` on `dist/assets` (directory absent or unlistable); `some l`
models a successful listing returning `l`. -/
structure FS where
  distEntry : Option EntryKind
  htmlEntry : Option EntryKind
  assetsListing : Option (List DirEntry)
deriving DecidableEq, Repr

/-- Path of the output directory: `resolve(root, "dist")`. -/
def distDir (root : String) : String := root ++ "/dist"

/-- Path of the entry file: `resolve(distDir, "index.html")`. -/
def htmlPath (root : String) : String := root ++ "/dist/index.html"

/-- Path of the assets directory: `resolve(distDir, "assets")`. -/
def assetsDir (root : String) : String := root ++ "/dist/assets"

/-- Message thrown when the assets listing holds no `.js` entry. -/
def assetsMsg : String := "dist/assets is missing bundled JavaScript output"

/-- Embedding of JavaScript `String.prototype.endsWith`: true exactly when
the character sequence of `suffix` is a suffix of the character sequence of
`file` (exact, case-sensitive match). -/
def endsWith (file suffix : String) : Bool := suffix.data.isSuffixOf file.data

/-- Embedding of `ensureExists(path, description)`: `fs.access` succeeds
exactly when the entry exists (whatever its kind); on failure the function
throws `Missing <description> at <path>`. -/
def ensureExists (entry : Option EntryKind) (path description : String) :
    Except String Unit :=
  match entry with
  | some _ => Except.ok ()
  | none => Except.error ("Missing " ++ description ++ " at " ++ path)

/-- Embedding of the body of `main()`.  Returns the lines printed to standard
output on success, or the thrown error message on failure. -/
def mainRun (root : String) (fs : FS) : Except String (List String) := do
  ensureExists fs.distEntry (distDir root) "dist directory"
  ensureExists fs.htmlEntry (htmlPath root) "dist/index.html"
  let assets := (fs.assetsListing.getD []).map DirEntry.name
  if !(assets.any (fun file => endsWith file ".js")) then
    throw assetsMsg
  pure ("Prebuilt dist assets detected:" ::
    assets.map (fun asset => "  - " ++ asset))

/-- Observable outcome of one run: process exit code, standard-output lines,
error-stream lines. -/
structure RunResult where
  exitCode : Nat
  stdout : List String
  stderr : List String
deriving DecidableEq, Repr

/-- Embedding of the whole program, `main().catch(...)`: on success the exit
code is the default `0` and the collected `console.log` lines are on standard
output; on any thrown error the catch handler prints `error.message` with
`console.error` and sets `process.exitCode = 1`. -/
def run (root : String) (fs : FS) : RunResult :=
  match mainRun root fs with
  | Except.ok lines => ⟨0, lines, []⟩
  | Except.error msg => ⟨1, [], [msg]⟩

/-- One externally visible effect of the script: a filesystem access check, a
directory read, a filesystem write (present in the `node:fs` API but shown
below never to be issued), or a console line. -/
inductive Effect
  | fsAccess (path : String)
  | fsReaddir (path : String)
  | fsWrite (path : String)
  | consoleLog (line : String)
  | consoleError (line : String)
deriving DecidableEq, Repr

/-- Whether an effect mutates the filesystem. -/
def Effect.isWrite : Effect → Bool
  | Effect.fsWrite _ => true
  | _ => false

/-- Sequence of effects one run issues, in source order: access `dist`, then
access `dist/index.html`, then `readdir` on `dist/assets`, then either the
error line of the first failed check or the success lines. -/
def trace (root : String) (fs : FS) : List Effect :=
  Effect.fsAccess (distDir root) ::
    match fs.distEntry with
    | none =>
        [Effect.consoleError ("Missing dist directory at " ++ distDir root)]
    | some _ =>
        Effect.fsAccess (htmlPath root) ::
          match fs.htmlEntry with
          | none =>
              [Effect.consoleError
                ("Missing dist/index.html at " ++ htmlPath root)]
          | some _ =>
              Effect.fsReaddir (assetsDir root) ::
                (let assets := (fs.assetsListing.getD []).map DirEntry.name
                 if !(assets.any (fun file => endsWith file ".js")) then
                   [Effect.consoleError assetsMsg]
                 else
                   Effect.consoleLog "Prebuilt dist assets detected:" ::
                     assets.map
                       (fun asset => Effect.consoleLog ("  - " ++ asset)))

/-- C1: with `dist` and `dist/index.html` accessible and an assets listing
holding at least one entry whose name ends in `.js`, the run exits with
status 0 and prints the header followed by one dash-prefixed line per listing
entry, in listing order. -/
theorem run_success_output (root : String) (fs : FS) (l : List DirEntry)
    (hd : fs.distEntry.isSome) (hh : fs.htmlEntry.isSome)
    (hl : fs.assetsListing = some l)
    (hjs : (l.map DirEntry.name).any (fun file => endsWith file ".js") = true) :
    run root fs =
      ⟨0, "Prebuilt dist assets detected:" ::
        (l.map DirEntry.name).map (fun asset => "  - " ++ asset), []⟩ := by
  obtain ⟨d, h, a⟩ := fs
  cases d with
  | none => simp at hd
  | some kd =>
    cases h with
    | none => simp at hh
    | some kh =>
      simp only at hl
      subst hl
      simp [run, mainRun, ensureExists, Option.getD, hjs]
      rfl

/-- Witness for `run_success_output` at a concrete filesystem. -/
theorem run_success_output_witness :
    run "/app"
      ⟨some EntryKind.dir, some EntryKind.file,
        some [⟨"main.abc123.js", EntryKind.file⟩,
              ⟨"main.abc123.css", EntryKind.file⟩]⟩ =
      ⟨0, ["Prebuilt dist assets detected:",
           "  - main.abc123.js", "  - main.abc123.css"], []⟩ :=
  run_success_output "/app"
    ⟨some EntryKind.dir, some EntryKind.file,
      some [⟨"main.abc123.js", EntryKind.file⟩,
            ⟨"main.abc123.css", EntryKind.file⟩]⟩
    [⟨"main.abc123.js", EntryKind.file⟩, ⟨"main.abc123.css", EntryKind.file⟩]
    (by decide) (by decide) rfl (by decide)

/-- Equation for `run` when `dist` is absent: the first check throws and the
catch handler reports it. -/
theorem run_dist_none (root : String) (h : Option EntryKind)
    (a : Option (List DirEntry)) :
    run root ⟨none, h, a⟩ =
      ⟨1, [], ["Missing dist directory at " ++ distDir root]⟩ := rfl

/-- Equation for `run` when `dist` is accessible but `dist/index.html` is
absent: the second check throws. -/
theorem run_html_none (root : String) (kd : EntryKind)
    (a : Option (List DirEntry)) :
    run root ⟨some kd, none, a⟩ =
      ⟨1, [], ["Missing dist/index.html at " ++ htmlPath root]⟩ := rfl

/-- Equation for `run` when both access checks pass but `readdir` fails: the
listing degrades to `[]` and the assets check throws. -/
theorem run_assets_dir_none (root : String) (kd kh : EntryKind) :
    run root ⟨some kd, some kh, none⟩ = ⟨1, [], [assetsMsg]⟩ := rfl

/-- Equation for `run` when both access checks pass, the listing succeeds and
some entry name ends in `.js`: the run prints the summary and exits 0. -/
theorem run_assets_some_js (root : String) (kd kh : EntryKind)
    (l : List DirEntry)
    (hq : (l.map DirEntry.name).any (fun file => endsWith file ".js") = true) :
    run root ⟨some kd, some kh, some l⟩ =
      ⟨0, "Prebuilt dist assets detected:" ::
        (l.map DirEntry.name).map (fun asset => "  - " ++ asset), []⟩ := by
  simp only [run, mainRun, ensureExists, Option.getD, hq]
  rfl

/-- Equation for `run` when both access checks pass, the listing succeeds and
no entry name ends in `.js`: the assets check throws. -/
theorem run_assets_some_nojs (root : String) (kd kh : EntryKind)
    (l : List DirEntry)
    (hq : (l.map DirEntry.name).any (fun file => endsWith file ".js") = false) :
    run root ⟨some kd, some kh, some l⟩ = ⟨1, [], [assetsMsg]⟩ := by
  simp only [run, mainRun, ensureExists, Option.getD, hq]
  rfl

/-- C2: with the `dist` directory absent or inaccessible, the run exits
non-zero, the error stream carries exactly the line
`Missing dist directory at <path>`, and the trace shows no further check is
performed after the failing access. -/
theorem run_missing_dist (root : String) (fs : FS)
    (hd : fs.distEntry = none) :
    (run root fs).exitCode ≠ 0 ∧
    (run root fs).stderr = ["Missing dist directory at " ++ distDir root] ∧
    trace root fs =
      [Effect.fsAccess (distDir root),
       Effect.consoleError ("Missing dist directory at " ++ distDir root)] := by
  obtain ⟨d, h, a⟩ := fs
  cases d with
  | some kd => simp at hd
  | none =>
    refine ⟨?_, rfl, rfl⟩
    rw [run_dist_none]
    simp

/-- Witness for `run_missing_dist` at a concrete filesystem holding a
qualifying asset but no `dist`. -/
theorem run_missing_dist_witness :
    (run "/app" ⟨none, some EntryKind.file,
        some [⟨"app.js", EntryKind.file⟩]⟩).exitCode ≠ 0 ∧
    (run "/app" ⟨none, some EntryKind.file,
        some [⟨"app.js", EntryKind.file⟩]⟩).stderr =
      ["Missing dist directory at " ++ distDir "/app"] ∧
    trace "/app" ⟨none, some EntryKind.file, some [⟨"app.js", EntryKind.file⟩]⟩ =
      [Effect.fsAccess (distDir "/app"),
       Effect.consoleError ("Missing dist directory at " ++ distDir "/app")] :=
  run_missing_dist "/app"
    ⟨none, some EntryKind.file, some [⟨"app.js", EntryKind.file⟩]⟩ rfl

/-- C3: with `dist` present but `dist/index.html` absent, the run exits
non-zero with the line `Missing dist/index.html at <path>`, and the trace
shows the assets directory is never read — the entry-file check
short-circuits even when a qualifying `.js` asset exists. -/
theorem run_missing_html (root : String) (fs : FS)
    (hd : fs.distEntry.isSome) (hh : fs.htmlEntry = none) :
    (run root fs).exitCode ≠ 0 ∧
    (run root fs).stderr = ["Missing dist/index.html at " ++ htmlPath root] ∧
    trace root fs =
      [Effect.fsAccess (distDir root), Effect.fsAccess (htmlPath root),
       Effect.consoleError ("Missing dist/index.html at " ++ htmlPath root)] := by
  obtain ⟨d, h, a⟩ := fs
  cases d with
  | none => simp at hd
  | some kd =>
    cases h with
    | some kh => simp at hh
    | none =>
      refine ⟨?_, rfl, rfl⟩
      rw [run_html_none]
      simp

/-- Witness for `run_missing_html`: `dist/assets/app.js` is present, yet the
reported failure is the missing entry file. -/
theorem run_missing_html_witness :
    (run "/app" ⟨some EntryKind.dir, none,
        some [⟨"app.js", EntryKind.file⟩]⟩).exitCode ≠ 0 ∧
    (run "/app" ⟨some EntryKind.dir, none,
        some [⟨"app.js", EntryKind.file⟩]⟩).stderr =
      ["Missing dist/index.html at " ++ htmlPath "/app"] ∧
    trace "/app" ⟨some EntryKind.dir, none, some [⟨"app.js", EntryKind.file⟩]⟩ =
      [Effect.fsAccess (distDir "/app"), Effect.fsAccess (htmlPath "/app"),
       Effect.consoleError ("Missing dist/index.html at " ++ htmlPath "/app")] :=
  run_missing_html "/app"
    ⟨some EntryKind.dir, none, some [⟨"app.js", EntryKind.file⟩]⟩
    (by decide) rfl

/-- C4: with `dist` and `dist/index.html` accessible but `dist/assets`
unlistable, the run behaves exactly as if the listing were empty: it fails
with the literal assets message and a non-zero exit status. -/
theorem run_assets_unlistable (root : String) (fs : FS)
    (hd : fs.distEntry.isSome) (hh : fs.htmlEntry.isSome)
    (ha : fs.assetsListing = none) :
    run root fs = run root ⟨fs.distEntry, fs.htmlEntry, some []⟩ ∧
    (run root fs).exitCode ≠ 0 ∧
    (run root fs).stderr =
      ["dist/assets is missing bundled JavaScript output"] := by
  obtain ⟨d, h, a⟩ := fs
  cases d with
  | none => simp at hd
  | some kd =>
    cases h with
    | none => simp at hh
    | some kh =>
      simp only at ha
      subst ha
      refine ⟨rfl, ?_, rfl⟩
      rw [run_assets_dir_none]
      simp

/-- Witness for `run_assets_unlistable` at a concrete filesystem with no
assets directory. -/
theorem run_assets_unlistable_witness :
    run "/app" ⟨some EntryKind.dir, some EntryKind.file, none⟩ =
      run "/app" ⟨some EntryKind.dir, some EntryKind.file, some []⟩ ∧
    (run "/app" ⟨some EntryKind.dir, some EntryKind.file, none⟩).exitCode ≠ 0 ∧
    (run "/app" ⟨some EntryKind.dir, some EntryKind.file, none⟩).stderr =
      ["dist/assets is missing bundled JavaScript output"] :=
  run_assets_unlistable "/app" ⟨some EntryKind.dir, some EntryKind.file, none⟩
    (by decide) (by decide) rfl

/-- C5: with a successful listing, the run succeeds exactly when some entry
name ends with the case-sensitive suffix `.js`; when none does, the error
stream carries the literal assets message. -/
theorem run_assets_check_iff (root : String) (fs : FS) (l : List DirEntry)
    (hd : fs.distEntry.isSome) (hh : fs.htmlEntry.isSome)
    (hl : fs.assetsListing = some l) :
    ((run root fs).exitCode = 0 ↔
      (l.map DirEntry.name).any (fun file => endsWith file ".js") = true) ∧
    ((l.map DirEntry.name).any (fun file => endsWith file ".js") = false →
      (run root fs).stderr =
        ["dist/assets is missing bundled JavaScript output"]) := by
  obtain ⟨d, h, a⟩ := fs
  cases d with
  | none => simp at hd
  | some kd =>
    cases h with
    | none => simp at hh
    | some kh =>
      simp only at hl
      subst hl
      cases hq : (l.map DirEntry.name).any (fun file => endsWith file ".js") with
      | true =>
        rw [run_assets_some_js root kd kh l hq]
        simp
      | false =>
        rw [run_assets_some_nojs root kd kh l hq]
        simp [assetsMsg]

/-- Witness for `run_assets_check_iff`: `Main.JS` and `.jsx` do not qualify,
so this concrete run fails with the assets message. -/
theorem run_assets_check_iff_witness :
    ((run "/app" ⟨some EntryKind.dir, some EntryKind.file,
        some [⟨"Main.JS", EntryKind.file⟩, ⟨".jsx", EntryKind.file⟩]⟩).exitCode
          = 0 ↔
      (([⟨"Main.JS", EntryKind.file⟩,
         ⟨".jsx", EntryKind.file⟩] : List DirEntry).map DirEntry.name).any
        (fun file => endsWith file ".js") = true) ∧
    ((([⟨"Main.JS", EntryKind.file⟩,
        ⟨".jsx", EntryKind.file⟩] : List DirEntry).map DirEntry.name).any
        (fun file => endsWith file ".js") = false →
      (run "/app" ⟨some EntryKind.dir, some EntryKind.file,
        some [⟨"Main.JS", EntryKind.file⟩, ⟨".jsx", EntryKind.file⟩]⟩).stderr =
        ["dist/assets is missing bundled JavaScript output"]) :=
  run_assets_check_iff "/app"
    ⟨some EntryKind.dir, some EntryKind.file,
      some [⟨"Main.JS", EntryKind.file⟩, ⟨".jsx", EntryKind.file⟩]⟩
    [⟨"Main.JS", EntryKind.file⟩, ⟨".jsx", EntryKind.file⟩]
    (by decide) (by decide) rfl

/-- C6: every failing run writes exactly one line to the error stream, and
the line is determined by the first failing check in the fixed order
directory existence, entry-file existence, asset-listing content. -/
theorem run_failure_single_message (root : String) (fs : FS)
    (h : (run root fs).exitCode ≠ 0) :
    (run root fs).stderr =
      [if fs.distEntry = none then
         "Missing dist directory at " ++ distDir root
       else if fs.htmlEntry = none then
         "Missing dist/index.html at " ++ htmlPath root
       else "dist/assets is missing bundled JavaScript output"] := by
  obtain ⟨d, h', a⟩ := fs
  cases d with
  | none =>
    rw [run_dist_none]
    simp
  | some kd =>
    cases h' with
    | none =>
      rw [run_html_none]
      simp
    | some kh =>
      cases a with
      | none =>
        rw [run_assets_dir_none]
        simp [assetsMsg]
      | some l =>
        cases hq : (l.map DirEntry.name).any (fun file => endsWith file ".js") with
        | false =>
          rw [run_assets_some_nojs root kd kh l hq]
          simp [assetsMsg]
        | true =>
          rw [run_assets_some_js root kd kh l hq] at h
          simp at h

/-- Witness for `run_failure_single_message`: a filesystem where every check
would fail still reports only the first failure. -/
theorem run_failure_single_message_witness :
    (run "/app" (FS.mk none none none)).stderr =
      [if (FS.mk none none none).distEntry = none then
         "Missing dist directory at " ++ distDir "/app"
       else if (FS.mk none none none).htmlEntry = none then
         "Missing dist/index.html at " ++ htmlPath "/app"
       else "dist/assets is missing bundled JavaScript output"] :=
  run_failure_single_message "/app" (FS.mk none none none) (by decide)

/-- Every effect a run issues is an access check, a directory read or a
console line — never a filesystem write. -/
theorem trace_no_write (root : String) (fs : FS) :
    ∀ e ∈ trace root fs, e.isWrite = false := by
  obtain ⟨d, h, a⟩ := fs
  intro e he
  cases d with
  | none =>
    simp [trace] at he
    rcases he with rfl | rfl <;> rfl
  | some kd =>
    cases h with
    | none =>
      simp [trace] at he
      rcases he with rfl | rfl | rfl <;> rfl
    | some kh =>
      cases hq : ((a.getD []).map DirEntry.name).any
          (fun file => endsWith file ".js") with
      | false =>
        simp [trace, hq] at he
        rcases he with rfl | rfl | rfl | rfl <;> rfl
      | true =>
        simp [trace, hq] at he
        rcases he with rfl | rfl | rfl | rfl | ⟨x, hx, rfl⟩ <;> rfl

/-- Folding a state-transition function that fixes the state on every
non-write effect over a write-free effect list leaves the state unchanged. -/
theorem foldl_fix_of_no_write (step : FS → Effect → FS)
    (hstep : ∀ g e, e.isWrite = false → step g e = g) :
    ∀ (l : List Effect) (g : FS), (∀ e ∈ l, e.isWrite = false) →
      l.foldl step g = g := by
  intro l
  induction l with
  | nil => intro g _; rfl
  | cons e t ih =>
    intro g hl
    rw [List.foldl_cons, hstep g e (hl e (List.mem_cons_self e t))]
    exact ih g (fun x hx => hl x (List.mem_cons_of_mem e hx))

/-- C7: a run issues no filesystem write, so under any effect semantics in
which non-write effects leave the filesystem unchanged, the filesystem after
a run equals the filesystem before it, and a second run against the resulting
filesystem produces an identical outcome and identical effect sequence. -/
theorem run_no_mutation_idempotent (root : String) (fs : FS)
    (step : FS → Effect → FS)
    (hstep : ∀ g e, e.isWrite = false → step g e = g) :
    (trace root fs).foldl step fs = fs ∧
    run root ((trace root fs).foldl step fs) = run root fs ∧
    trace root ((trace root fs).foldl step fs) = trace root fs := by
  have hfix : (trace root fs).foldl step fs = fs :=
    foldl_fix_of_no_write step hstep (trace root fs) fs (trace_no_write root fs)
  exact ⟨hfix, by rw [hfix], by rw [hfix]⟩

/-- Witness for `run_no_mutation_idempotent` with the identity-on-reads
semantics and a concrete filesystem. -/
theorem run_no_mutation_idempotent_witness :
    (trace "/app" ⟨some EntryKind.dir, some EntryKind.file,
        some [⟨"app.js", EntryKind.file⟩]⟩).foldl (fun (g : FS) _ => g)
      ⟨some EntryKind.dir, some EntryKind.file,
        some [⟨"app.js", EntryKind.file⟩]⟩ =
      ⟨some EntryKind.dir, some EntryKind.file,
        some [⟨"app.js", EntryKind.file⟩]⟩ ∧
    run "/app" ((trace "/app" ⟨some EntryKind.dir, some EntryKind.file,
        some [⟨"app.js", EntryKind.file⟩]⟩).foldl (fun (g : FS) _ => g)
      ⟨some EntryKind.dir, some EntryKind.file,
        some [⟨"app.js", EntryKind.file⟩]⟩) =
      run "/app" ⟨some EntryKind.dir, some EntryKind.file,
        some [⟨"app.js", EntryKind.file⟩]⟩ ∧
    trace "/app" ((trace "/app" ⟨some EntryKind.dir, some EntryKind.file,
        some [⟨"app.js", EntryKind.file⟩]⟩).foldl (fun (g : FS) _ => g)
      ⟨some EntryKind.dir, some EntryKind.file,
        some [⟨"app.js", EntryKind.file⟩]⟩) =
      trace "/app" ⟨some EntryKind.dir, some EntryKind.file,
        some [⟨"app.js", EntryKind.file⟩]⟩ :=
  run_no_mutation_idempotent "/app"
    ⟨some EntryKind.dir, some EntryKind.file,
      some [⟨"app.js", EntryKind.file⟩]⟩
    (fun (g : FS) _ => g) (fun _ _ _ => rfl)

/-- C8: every failing run sets the process exit code to exactly 1, whichever
check failed. -/
theorem run_fail_exit_code_one (root : String) (fs : FS)
    (h : (run root fs).exitCode ≠ 0) : (run root fs).exitCode = 1 := by
  cases hm : mainRun root fs with
  | ok lines => simp [run, hm] at h
  | error msg => simp [run, hm]

/-- Witness for `run_fail_exit_code_one` on a filesystem with no `dist`. -/
theorem run_fail_exit_code_one_witness :
    (run "/app" (FS.mk none none none)).exitCode = 1 :=
  run_fail_exit_code_one "/app" (FS.mk none none none) (by decide)

/-- C9: the assets check inspects entry names only: any listing entry whose
name ends in `.js` satisfies it, whatever the entry's kind — a subdirectory
named `bundle.js` or a hidden entry named `.js` qualifies exactly like a
regular file. -/
theorem run_assets_kind_ignored (root : String) (fs : FS) (l : List DirEntry)
    (e : DirEntry) (hd : fs.distEntry.isSome) (hh : fs.htmlEntry.isSome)
    (hl : fs.assetsListing = some l) (he : e ∈ l)
    (hjs : endsWith e.name ".js" = true) :
    (run root fs).exitCode = 0 := by
  have hq : (l.map DirEntry.name).any (fun file => endsWith file ".js")
      = true := by
    rw [List.any_eq_true]
    exact ⟨e.name, List.mem_map_of_mem DirEntry.name he, hjs⟩
  obtain ⟨d, h, a⟩ := fs
  cases d with
  | none => simp at hd
  | some kd =>
    cases h with
    | none => simp at hh
    | some kh =>
      simp only at hl
      subst hl
      rw [run_assets_some_js root kd kh l hq]

/-- Witness for `run_assets_kind_ignored`: the sole qualifying entry is a
subdirectory named `bundle.js`. -/
theorem run_assets_kind_ignored_witness :
    (run "/app" ⟨some EntryKind.dir, some EntryKind.file,
        some [⟨"bundle.js", EntryKind.dir⟩]⟩).exitCode = 0 :=
  run_assets_kind_ignored "/app"
    ⟨some EntryKind.dir, some EntryKind.file,
      some [⟨"bundle.js", EntryKind.dir⟩]⟩
    [⟨"bundle.js", EntryKind.dir⟩] ⟨"bundle.js", EntryKind.dir⟩
    (by decide) (by decide) rfl (by decide) (by decide)

/-- C10: the two access checks test accessibility only, never kind: with
`dist` a regular file and `index.html` a directory inside it, both checks
pass, the run reaches the assets check and, with a qualifying asset, exits 0
with the full summary. -/
theorem run_access_kind_ignored (root : String) (l : List DirEntry)
    (hjs : (l.map DirEntry.name).any (fun file => endsWith file ".js") = true) :
    run root ⟨some EntryKind.file, some EntryKind.dir, some l⟩ =
      ⟨0, "Prebuilt dist assets detected:" ::
        (l.map DirEntry.name).map (fun asset => "  - " ++ asset), []⟩ :=
  run_assets_some_js root EntryKind.file EntryKind.dir l hjs

/-- Witness for `run_access_kind_ignored` at a concrete listing. -/
theorem run_access_kind_ignored_witness :
    run "/app" ⟨some EntryKind.file, some EntryKind.dir,
        some [⟨"app.js", EntryKind.file⟩]⟩ =
      ⟨0, ["Prebuilt dist assets detected:", "  - app.js"], []⟩ :=
  run_access_kind_ignored "/app" [⟨"app.js", EntryKind.file⟩] (by decide)

end VerifyDist
